import Mathlib

/-!
# ProcessInfo (`src/mongo/util/processinfo.h`)

A shallow embedding of the inline code of `mongo::ProcessInfo`: the
`SystemInfo` snapshot and its constructor, the accessors that read the
snapshot through the static `systemInfo` pointer, and the page alignment
arithmetic of `alignToStartOfPage`.

Conventions.
* `unsigned` and `unsigned long long` values are natural numbers; where the
  C++ arithmetic can wrap, the reduction modulo `2^64` is written out.
* The static pointer `ProcessInfo::systemInfo` is an `Option SystemInfo`:
  `none` is the null pointer (no snapshot published yet), and reading through
  a null pointer yields `none`.
* `std::string` is `String`; a default-constructed string is `""`.
-/

set_option linter.dupNamespace false

namespace ProcessInfo

/-- Modelled from the spec: the `BSONObj` type of `_extraStats` is declared in
`mongo/db/jsobj.h`, which is not part of the sources; the spec calls it a
"structured key-value document", opaque to this core. -/
abbrev BSONObj := List (String × String)

/-- Host and operating system info (`class ProcessInfo::SystemInfo`), field by
field in declaration order. -/
structure SystemInfo where
  osType : String
  osName : String
  osVersion : String
  addrSize : Nat
  memSize : Nat
  numCores : Nat
  pageSize : Nat
  cpuArch : String
  hasNuma : Bool
  _extraStats : BSONObj
  fileZeroNeeded : Bool
  deriving DecidableEq, Repr

/-- The object as the member initialisers of `SystemInfo()` leave it, before
the constructor body runs: the four numeric members are set to `0`, the two
flags to `false`, and the members not named in the initialiser list
(`osType`, `osName`, `osVersion`, `cpuArch`, `_extraStats`) are
default-constructed, hence empty. -/
def SystemInfo.memberInit : SystemInfo :=
  { osType := ""
    osName := ""
    osVersion := ""
    addrSize := 0
    memSize := 0
    numCores := 0
    pageSize := 0
    cpuArch := ""
    hasNuma := false
    _extraStats := []
    fileZeroNeeded := false }

/-- The constructor `SystemInfo::SystemInfo()`. Its body is the single call
`collectSystemInfo()`; that member function is only declared in the header
(it is platform code), so it is a parameter here: a transformer of the object
under construction. -/
def SystemInfo.SystemInfo (collectSystemInfo : SystemInfo → SystemInfo) : SystemInfo :=
  collectSystemInfo SystemInfo.memberInit

/-- The private accessor `sysInfo()`: `return *systemInfo;`. -/
def sysInfo (systemInfo : Option SystemInfo) : Option SystemInfo :=
  systemInfo

/-- `getOsType()`: `return sysInfo().osType;`. -/
def getOsType (systemInfo : Option SystemInfo) : Option String :=
  (sysInfo systemInfo).map fun s => s.osType

/-- `getOsName()`: `return sysInfo().osName;`. -/
def getOsName (systemInfo : Option SystemInfo) : Option String :=
  (sysInfo systemInfo).map fun s => s.osName

/-- `getOsVersion()`: `return sysInfo().osVersion;`. -/
def getOsVersion (systemInfo : Option SystemInfo) : Option String :=
  (sysInfo systemInfo).map fun s => s.osVersion

/-- `getAddrSize()`: `return sysInfo().addrSize;`. -/
def getAddrSize (systemInfo : Option SystemInfo) : Option Nat :=
  (sysInfo systemInfo).map fun s => s.addrSize

/-- `getMemSizeMB()`: `return sysInfo().memSize / (1024 * 1024);`. -/
def getMemSizeMB (systemInfo : Option SystemInfo) : Option Nat :=
  (sysInfo systemInfo).map fun s => s.memSize / (1024 * 1024)

/-- `getNumCores()`: `return sysInfo().numCores;`. -/
def getNumCores (systemInfo : Option SystemInfo) : Option Nat :=
  (sysInfo systemInfo).map fun s => s.numCores

/-- `getPageSize()`: `return systemInfo->pageSize;`. -/
def getPageSize (systemInfo : Option SystemInfo) : Option Nat :=
  systemInfo.map fun s => s.pageSize

/-- `getArch()`: `return sysInfo().cpuArch;`. -/
def getArch (systemInfo : Option SystemInfo) : Option String :=
  (sysInfo systemInfo).map fun s => s.cpuArch

/-- `hasNumaEnabled()`: `return sysInfo().hasNuma;`. -/
def hasNumaEnabled (systemInfo : Option SystemInfo) : Option Bool :=
  (sysInfo systemInfo).map fun s => s.hasNuma

/-- `isDataFileZeroingNeeded()`: `return systemInfo->fileZeroNeeded;`. -/
def isDataFileZeroingNeeded (systemInfo : Option SystemInfo) : Option Bool :=
  systemInfo.map fun s => s.fileZeroNeeded

/-- Bitwise complement `~x` of an `unsigned long long`. -/
def complement64 (x : Nat) : Nat :=
  2 ^ 64 - 1 - x % 2 ^ 64

/-- `alignToStartOfPage(ptr)`:
`reinterpret_cast<unsigned long long>(ptr) & ~(getPageSize() - 1)`.
The pointer is the number `ptr`; the cast reduces it to 64 bits, and the
subtraction `getPageSize() - 1` is unsigned, so it wraps modulo `2^64`. -/
def alignToStartOfPage (systemInfo : Option SystemInfo) (ptr : Nat) : Option Nat :=
  (getPageSize systemInfo).map fun pageSize =>
    (ptr % 2 ^ 64) &&& complement64 ((pageSize % 2 ^ 64 + 2 ^ 64 - 1) % 2 ^ 64)

/-! ## The residency probe

`blockCheckSupported`, `blockInMemory` and `pagesInMemory` are only declared in
the header; their bodies are platform code outside it. -/

/-- Modelled from the spec: the host platform behind the residency probe, which
the header does not contain. `blockCheckSupported` is the capability query
(`supported()` in the spec); `queryable alignedStart numPages` tells whether
the platform can perform the residency query for that range (valid range,
sufficient permission); `resident addr` tells whether the page starting at
`addr` is backed by physical memory. -/
structure Platform where
  blockCheckSupported : Bool
  queryable : Nat → Nat → Bool
  resident : Nat → Bool

/-- Modelled from the spec: the platform residency query of section 6,
`queryResidency(alignedStartAddress, numPages) -> (bool[numPages], success)`,
absent from the sources: one boolean per page, in ascending address order,
together with the success indicator; empty on failure. -/
def queryResidency (pl : Platform) (pageSize alignedStartAddress numPages : Nat) :
    List Bool × Bool :=
  if pl.queryable alignedStartAddress numPages then
    ((List.range numPages).map fun i => pl.resident (alignedStartAddress + i * pageSize), true)
  else
    ([], false)

/-- Modelled from the spec: `pagesInMemory(start, numPages, out)`, declared in
the header but defined in platform code that is absent. Following section 4.2
it computes the aligned start page of `start`, asks the host for the residency
of `numPages` consecutive pages from there, and fails when the probe is
unsupported or the query cannot be performed. The result pairs the returned
success flag with the final contents of `out`; an element of the
`vector<char>` is represented by whether it is non-zero. -/
def pagesInMemory (pl : Platform) (systemInfo : Option SystemInfo) (start numPages : Nat) :
    Option (Bool × List Bool) :=
  match alignToStartOfPage systemInfo start, getPageSize systemInfo with
  | some first, some pageSize =>
    if pl.blockCheckSupported then
      match queryResidency pl pageSize first numPages with
      | (pages, true) => some (true, pages)
      | (_, false) => some (false, [])
    else
      some (false, [])
  | _, _ => none

/-- Modelled from the spec: `blockInMemory(start)`, declared in the header but
defined in platform code that is absent: "the single-page convenience form of
`pagesInMemory`, equivalent to calling it with `numPages = 1` and taking the
first boolean; also fails/reports false on unsupported platforms". -/
def blockInMemory (pl : Platform) (systemInfo : Option SystemInfo) (start : Nat) :
    Option Bool :=
  (pagesInMemory pl systemInfo start 1).map fun r => r.1 && r.2.headD false

/-! ## Concrete snapshots and platforms -/

/-- A collector that determines nothing: every member keeps the value the
member initialisers gave it. -/
def collectNothing : SystemInfo → SystemInfo :=
  fun s => s

/-- A collector that assigns every member, as on a typical 64-bit Linux host
with 8 GiB of memory and 4 KiB pages. -/
def collectLinuxHost : SystemInfo → SystemInfo :=
  fun s =>
    { s with
      osType := "Linux"
      osName := "Ubuntu"
      osVersion := "10.04"
      addrSize := 64
      memSize := 8589934592
      numCores := 4
      pageSize := 4096
      cpuArch := "x86_64"
      hasNuma := true
      fileZeroNeeded := false }

/-- A collector that determines everything except the NUMA flag. -/
def collectWithoutNuma : SystemInfo → SystemInfo :=
  fun s => { collectLinuxHost s with hasNuma := s.hasNuma }

/-- A platform with a working probe on which, of the pages starting at
`8192`, `12288` and `16384`, the first and the third are resident. -/
def scenarioPlatform : Platform :=
  { blockCheckSupported := true
    queryable := fun _ _ => true
    resident := fun addr => addr == 8192 || addr == 16384 }

/-! ## Page alignment arithmetic -/

/-- Bit `i` of the mask `~(2^k - 1)` computed in 64 bits: set exactly for
`k ≤ i < 64`. -/
theorem testBit_pageMask (k : Nat) (hk : k < 64) (i : Nat) :
    (complement64 ((2 ^ k % 2 ^ 64 + 2 ^ 64 - 1) % 2 ^ 64)).testBit i
      = (decide (i < 64) && !decide (i < k)) := by
  have hlt : 2 ^ k < 2 ^ 64 := Nat.pow_lt_pow_right (by norm_num) hk
  have hpos : 0 < 2 ^ k := Nat.two_pow_pos k
  have h1 : (2 ^ k % 2 ^ 64 + 2 ^ 64 - 1) % 2 ^ 64 = 2 ^ k - 1 := by
    rw [Nat.mod_eq_of_lt hlt]
    have : 2 ^ k + 2 ^ 64 - 1 = (2 ^ k - 1) + 2 ^ 64 := by omega
    rw [this, Nat.add_mod_right, Nat.mod_eq_of_lt (by omega)]
  have h2 : complement64 (2 ^ k - 1) = 2 ^ 64 - ((2 ^ k - 1) + 1) := by
    unfold complement64
    rw [Nat.mod_eq_of_lt (by omega)]
    omega
  rw [h1, h2, Nat.testBit_two_pow_sub_succ (by omega), Nat.testBit_two_pow_sub_one]

/-- Bit `i` of `a - a % 2^k`: the bits of `a` from position `k` upwards. -/
theorem testBit_sub_mod_two_pow (a k i : Nat) :
    (a - a % 2 ^ k).testBit i = (decide (k ≤ i) && a.testBit i) := by
  have h : a - a % 2 ^ k = 2 ^ k * (a / 2 ^ k) := by
    have := Nat.div_add_mod a (2 ^ k)
    omega
  rw [h, Nat.testBit_mul_pow_two, ← Nat.shiftRight_eq_div_pow, Nat.testBit_shiftRight]
  by_cases hki : k ≤ i
  · simp [hki, Nat.add_sub_cancel' hki]
  · simp [hki]

/-- The alignment expression at a power-of-two page size `2^k`, `k < 64`. -/
theorem land_pageMask (a k : Nat) (ha : a < 2 ^ 64) (hk : k < 64) :
    (a % 2 ^ 64) &&& complement64 ((2 ^ k % 2 ^ 64 + 2 ^ 64 - 1) % 2 ^ 64)
      = a - a % 2 ^ k := by
  apply Nat.eq_of_testBit_eq
  intro i
  rw [Nat.testBit_and, testBit_pageMask k hk, testBit_sub_mod_two_pow, Nat.mod_eq_of_lt ha]
  by_cases hi : i < 64
  · by_cases hki : k ≤ i
    · simp [hi, hki, Nat.not_lt.mpr hki]
    · simp [hi, hki, Nat.lt_of_not_le hki]
  · have hfalse : a.testBit i = false :=
      Nat.testBit_lt_two_pow (Nat.lt_of_lt_of_le ha
        (Nat.pow_le_pow_right (by norm_num) (Nat.le_of_not_lt hi)))
    simp [hi, hfalse]

/-- The alignment law behind `alignToStartOfPage` for a snapshot whose page
size is `2^k` with `k < 64`. -/
theorem alignToStartOfPage_two_pow (si : SystemInfo) (a k : Nat) (ha : a < 2 ^ 64)
    (hk : k < 64) (hp : si.pageSize = 2 ^ k) :
    alignToStartOfPage (some si) a = some (a - a % 2 ^ k) := by
  simp only [alignToStartOfPage, getPageSize, Option.map_some', hp]
  rw [land_pageMask a k ha hk]

/-- A 64-bit power of two is `2^k` for some `k < 64`. -/
theorem exponent_lt_of_isPowerOfTwo (p : Nat) (hp : p.isPowerOfTwo) (hlt : p < 2 ^ 64) :
    ∃ k, k < 64 ∧ p = 2 ^ k := by
  obtain ⟨k, hk⟩ := hp
  refine ⟨k, ?_, hk⟩
  rw [hk] at hlt
  exact (Nat.pow_lt_pow_iff_right (by norm_num)).mp hlt

/-- The result of `alignToStartOfPage` is never above the 64-bit address it
was computed from. -/
theorem alignToStartOfPage_le (si : SystemInfo) (a : Nat) :
    ∃ r, alignToStartOfPage (some si) a = some r ∧ r ≤ a % 2 ^ 64 :=
  ⟨_, rfl, Nat.and_le_left⟩

/-! ## Claims -/

/-- C1: for every 64-bit address `a` and every snapshot whose page size `p` is
a (64-bit) power of two, `alignToStartOfPage` returns `a - a mod p`, the start
of the page containing `a`. -/
theorem alignToStartOfPage_eq_sub_mod (si : SystemInfo) (a : Nat) (ha : a < 2 ^ 64)
    (hpow : si.pageSize.isPowerOfTwo) (hlt : si.pageSize < 2 ^ 64) :
    alignToStartOfPage (some si) a = some (a - a % si.pageSize) := by
  obtain ⟨k, hk, hp⟩ := exponent_lt_of_isPowerOfTwo si.pageSize hpow hlt
  rw [hp]
  exact alignToStartOfPage_two_pow si a k ha hk hp

/-- C1, the scenario of the specification: with page size 4096 the address
4100 is aligned to 4096. -/
theorem alignToStartOfPage_eq_sub_mod_witness :
    alignToStartOfPage (some (SystemInfo.SystemInfo collectLinuxHost)) 4100 = some 4096 :=
  alignToStartOfPage_eq_sub_mod (SystemInfo.SystemInfo collectLinuxHost) 4100
    (by norm_num) ⟨12, rfl⟩ (by decide)

/-- C2: `alignToStartOfPage` is idempotent: aligning an aligned address again
returns it unchanged. This holds for every page size, in particular for every
power of two, and for every address. -/
theorem alignToStartOfPage_idempotent (si : SystemInfo) (a : Nat) :
    (alignToStartOfPage (some si) a).bind (alignToStartOfPage (some si))
      = alignToStartOfPage (some si) a := by
  simp only [alignToStartOfPage, getPageSize, Option.map_some', Option.some_bind]
  have hlt : (a % 2 ^ 64) &&& complement64 ((si.pageSize % 2 ^ 64 + 2 ^ 64 - 1) % 2 ^ 64)
      < 2 ^ 64 :=
    Nat.lt_of_le_of_lt Nat.and_le_left (Nat.mod_lt _ (by norm_num))
  rw [Nat.mod_eq_of_lt hlt, Nat.land_assoc, Nat.and_self]

/-- C3: for every snapshot `getMemSizeMB` returns `memSize / (1024*1024)`, the
truncated quotient (the largest `mb` with `mb * 1048576 ≤ memSize`); a
`memSize` of 8589934592 bytes gives 8192. -/
theorem getMemSizeMB_eq_div (si : SystemInfo) :
    getMemSizeMB (some si) = some (si.memSize / (1024 * 1024))
      ∧ si.memSize / (1024 * 1024) * 1048576 ≤ si.memSize
      ∧ si.memSize < (si.memSize / (1024 * 1024) + 1) * 1048576
      ∧ (si.memSize = 8589934592 → getMemSizeMB (some si) = some 8192) := by
  refine ⟨rfl, ?_, ?_, ?_⟩
  · omega
  · omega
  · intro h
    simp [getMemSizeMB, sysInfo, h]

/-- C3 at the snapshot of the 8 GiB host. -/
theorem getMemSizeMB_eq_div_witness :
    getMemSizeMB (some (SystemInfo.SystemInfo collectLinuxHost)) = some 8192 :=
  (getMemSizeMB_eq_div (SystemInfo.SystemInfo collectLinuxHost)).2.2.2 rfl

/-- C10: when the snapshot's page size is still the constructor default `0`,
`pageSize - 1` wraps to `2^64 - 1`, the mask `~(pageSize - 1)` is `0`, and
`alignToStartOfPage` returns address `0` for every input address. -/
theorem alignToStartOfPage_pageSize_zero (si : SystemInfo) (a : Nat) (h : si.pageSize = 0) :
    (si.pageSize % 2 ^ 64 + 2 ^ 64 - 1) % 2 ^ 64 = 2 ^ 64 - 1
      ∧ complement64 ((si.pageSize % 2 ^ 64 + 2 ^ 64 - 1) % 2 ^ 64) = 0
      ∧ alignToStartOfPage (some si) a = some 0 := by
  have hmask : complement64 ((si.pageSize % 2 ^ 64 + 2 ^ 64 - 1) % 2 ^ 64) = 0 := by
    rw [h]
    decide
  refine ⟨by rw [h]; norm_num, hmask, ?_⟩
  simp only [alignToStartOfPage, getPageSize, Option.map_some', hmask, Nat.and_zero]

/-- C10 at the snapshot built when collection determines nothing. -/
theorem alignToStartOfPage_pageSize_zero_witness :
    alignToStartOfPage (some (SystemInfo.SystemInfo collectNothing)) 4100 = some 0 :=
  (alignToStartOfPage_pageSize_zero (SystemInfo.SystemInfo collectNothing) 4100 rfl).2.2

/-- C4: whatever `collectSystemInfo` does, a member it leaves as the member
initialisers set it holds the documented default in the constructed snapshot:
empty for the text members, `0` for the numeric members, `false` for the
flags; and with the NUMA flag left alone `hasNumaEnabled` returns `false`, a
value and not an error. -/
theorem SystemInfo_undetermined_default (collectSystemInfo : SystemInfo → SystemInfo) :
    ((collectSystemInfo SystemInfo.memberInit).osType = SystemInfo.memberInit.osType →
        (SystemInfo.SystemInfo collectSystemInfo).osType = "")
      ∧ ((collectSystemInfo SystemInfo.memberInit).osName = SystemInfo.memberInit.osName →
        (SystemInfo.SystemInfo collectSystemInfo).osName = "")
      ∧ ((collectSystemInfo SystemInfo.memberInit).osVersion
          = SystemInfo.memberInit.osVersion →
        (SystemInfo.SystemInfo collectSystemInfo).osVersion = "")
      ∧ ((collectSystemInfo SystemInfo.memberInit).cpuArch = SystemInfo.memberInit.cpuArch →
        (SystemInfo.SystemInfo collectSystemInfo).cpuArch = "")
      ∧ ((collectSystemInfo SystemInfo.memberInit).addrSize = SystemInfo.memberInit.addrSize →
        (SystemInfo.SystemInfo collectSystemInfo).addrSize = 0)
      ∧ ((collectSystemInfo SystemInfo.memberInit).memSize = SystemInfo.memberInit.memSize →
        (SystemInfo.SystemInfo collectSystemInfo).memSize = 0)
      ∧ ((collectSystemInfo SystemInfo.memberInit).numCores = SystemInfo.memberInit.numCores →
        (SystemInfo.SystemInfo collectSystemInfo).numCores = 0)
      ∧ ((collectSystemInfo SystemInfo.memberInit).pageSize = SystemInfo.memberInit.pageSize →
        (SystemInfo.SystemInfo collectSystemInfo).pageSize = 0)
      ∧ ((collectSystemInfo SystemInfo.memberInit).fileZeroNeeded
          = SystemInfo.memberInit.fileZeroNeeded →
        (SystemInfo.SystemInfo collectSystemInfo).fileZeroNeeded = false)
      ∧ ((collectSystemInfo SystemInfo.memberInit).hasNuma = SystemInfo.memberInit.hasNuma →
        (SystemInfo.SystemInfo collectSystemInfo).hasNuma = false
          ∧ hasNumaEnabled (some (SystemInfo.SystemInfo collectSystemInfo)) = some false) := by
  refine ⟨?_, ?_, ?_, ?_, ?_, ?_, ?_, ?_, ?_, ?_⟩ <;> intro h
  · exact h
  · exact h
  · exact h
  · exact h
  · exact h
  · exact h
  · exact h
  · exact h
  · exact h
  · exact ⟨h, congrArg some h⟩

/-- C4 at a collector that determines every member except the NUMA flag:
`hasNumaEnabled` returns `false`. -/
theorem SystemInfo_undetermined_default_witness :
    (SystemInfo.SystemInfo collectWithoutNuma).hasNuma = false
      ∧ hasNumaEnabled (some (SystemInfo.SystemInfo collectWithoutNuma)) = some false :=
  (SystemInfo_undetermined_default collectWithoutNuma).2.2.2.2.2.2.2.2.2 rfl

/-- C5, refuted as stated: when collection determines nothing the constructed
snapshot has page size `0`, which is neither positive nor a power of two. -/
theorem SystemInfo_pageSize_not_guaranteed :
    (SystemInfo.SystemInfo collectNothing).pageSize = 0
      ∧ ¬ (0 < (SystemInfo.SystemInfo collectNothing).pageSize
            ∧ (SystemInfo.SystemInfo collectNothing).pageSize.isPowerOfTwo) :=
  ⟨rfl, fun h => absurd h.1 (by decide)⟩

/-- C5, amended: the constructor keeps the page size that `collectSystemInfo`
left in the object. When that value is a 64-bit power of two, the constructed
snapshot's page size is positive and a power of two, `getPageSize` returns it,
and `alignToStartOfPage` then yields the start of the page of every 64-bit
address. -/
theorem SystemInfo_pageSize_of_collected (collectSystemInfo : SystemInfo → SystemInfo)
    (hpow : (collectSystemInfo SystemInfo.memberInit).pageSize.isPowerOfTwo)
    (hlt : (collectSystemInfo SystemInfo.memberInit).pageSize < 2 ^ 64) :
    0 < (SystemInfo.SystemInfo collectSystemInfo).pageSize
      ∧ (SystemInfo.SystemInfo collectSystemInfo).pageSize.isPowerOfTwo
      ∧ getPageSize (some (SystemInfo.SystemInfo collectSystemInfo))
          = some (collectSystemInfo SystemInfo.memberInit).pageSize
      ∧ ∀ a, a < 2 ^ 64 →
          alignToStartOfPage (some (SystemInfo.SystemInfo collectSystemInfo)) a
            = some (a - a % (SystemInfo.SystemInfo collectSystemInfo).pageSize) := by
  obtain ⟨k, hk, hp⟩ :=
    exponent_lt_of_isPowerOfTwo (collectSystemInfo SystemInfo.memberInit).pageSize hpow hlt
  have hp2 : (SystemInfo.SystemInfo collectSystemInfo).pageSize = 2 ^ k := hp
  refine ⟨?_, hpow, rfl, ?_⟩
  · rw [hp2]
    exact Nat.two_pow_pos k
  · intro a ha
    rw [hp2]
    exact alignToStartOfPage_two_pow _ a k ha hk hp2

/-- C5, amended, at the collector of the Linux host, which assigns 4096. -/
theorem SystemInfo_pageSize_of_collected_witness :
    0 < (SystemInfo.SystemInfo collectLinuxHost).pageSize
      ∧ (SystemInfo.SystemInfo collectLinuxHost).pageSize.isPowerOfTwo
      ∧ getPageSize (some (SystemInfo.SystemInfo collectLinuxHost)) = some 4096
      ∧ ∀ a, a < 2 ^ 64 →
          alignToStartOfPage (some (SystemInfo.SystemInfo collectLinuxHost)) a
            = some (a - a % 4096) :=
  SystemInfo_pageSize_of_collected collectLinuxHost ⟨12, rfl⟩ (by decide)

/-- C6: for every start address `a` and every `n ≥ 1`, when `pagesInMemory`
reports success the output has exactly `n` entries and entry `i` tells whether
the page at `alignToStartOfPage a + i * pageSize` is resident. -/
theorem pagesInMemory_entries (pl : Platform) (si : SystemInfo) (a n : Nat) (out : List Bool)
    (_hn : 1 ≤ n) (h : pagesInMemory pl (some si) a n = some (true, out)) :
    ∃ first, alignToStartOfPage (some si) a = some first
      ∧ out.length = n
      ∧ ∀ i, i < n → out[i]? = some (pl.resident (first + i * si.pageSize)) := by
  obtain ⟨first, hfirst, -⟩ := alignToStartOfPage_le si a
  refine ⟨first, hfirst, ?_⟩
  simp only [pagesInMemory, hfirst, getPageSize, Option.map_some', queryResidency] at h
  by_cases hs : pl.blockCheckSupported = true
  · by_cases hq : pl.queryable first n = true
    · simp only [hs, hq, if_true, Option.some.injEq, Prod.mk.injEq, true_and] at h
      subst h
      refine ⟨by simp, ?_⟩
      intro i hi
      simp [List.getElem?_map, List.getElem?_range hi]
    · simp [hs, hq] at h
  · simp [hs] at h

/-- C6, the scenario of the specification: three pages from the aligned base
8192 with pages 0 and 2 resident and page 1 not give `[true, false, true]`
with success. -/
theorem pagesInMemory_entries_witness :
    pagesInMemory scenarioPlatform (some (SystemInfo.SystemInfo collectLinuxHost)) 8192 3
        = some (true, [true, false, true])
      ∧ ∃ first, alignToStartOfPage (some (SystemInfo.SystemInfo collectLinuxHost)) 8192
          = some first
        ∧ [true, false, true].length = 3
        ∧ ∀ i, i < 3 → [true, false, true][i]?
            = some (scenarioPlatform.resident
                (first + i * (SystemInfo.SystemInfo collectLinuxHost).pageSize)) :=
  ⟨rfl, pagesInMemory_entries scenarioPlatform (SystemInfo.SystemInfo collectLinuxHost) 8192 3
    [true, false, true] (by decide) rfl⟩

/-- C7: whenever the single-page query `pagesInMemory a 1` succeeds,
`blockInMemory a` succeeds too and returns the first element of its result. -/
theorem blockInMemory_eq_pagesInMemory_head (pl : Platform) (si : SystemInfo) (a : Nat)
    (out : List Bool) (h : pagesInMemory pl (some si) a 1 = some (true, out)) :
    ∃ b, out[0]? = some b ∧ blockInMemory pl (some si) a = some b := by
  obtain ⟨first, hfirst, -⟩ := alignToStartOfPage_le si a
  have hout : out = [pl.resident (first + 0 * si.pageSize)] := by
    simp only [pagesInMemory, hfirst, getPageSize, Option.map_some', queryResidency] at h
    by_cases hs : pl.blockCheckSupported = true
    · by_cases hq : pl.queryable first 1 = true
      · simp only [hs, hq, if_true, Option.some.injEq, Prod.mk.injEq, true_and] at h
        subst h
        simp [List.range_succ]
      · simp [hs, hq] at h
    · simp [hs] at h
  refine ⟨pl.resident (first + 0 * si.pageSize), by simp [hout], ?_⟩
  simp [blockInMemory, h, hout]

/-- C7 on the scenario platform: the page at 8192 is resident, and both forms
of the query say so. -/
theorem blockInMemory_eq_pagesInMemory_head_witness :
    pagesInMemory scenarioPlatform (some (SystemInfo.SystemInfo collectLinuxHost)) 8200 1
        = some (true, [true])
      ∧ ∃ b, [true][0]? = some b
        ∧ blockInMemory scenarioPlatform (some (SystemInfo.SystemInfo collectLinuxHost)) 8200
            = some b :=
  ⟨rfl, blockInMemory_eq_pagesInMemory_head scenarioPlatform
    (SystemInfo.SystemInfo collectLinuxHost) 8200 [true] rfl⟩

/-- C8, refuted as stated: with no snapshot published (`systemInfo` null) the
accessors return no value; they do not populate the snapshot and do not return
the values a collection would produce. -/
theorem accessors_do_not_populate :
    getPageSize none = none
      ∧ getMemSizeMB none = none
      ∧ getNumCores none = none
      ∧ getOsType none = none
      ∧ getPageSize none ≠ some (SystemInfo.SystemInfo collectLinuxHost).pageSize :=
  ⟨rfl, rfl, rfl, rfl, by simp [getPageSize]⟩

/-- C8, amended: an accessor only reads through `systemInfo`. On a published
snapshot it returns the stored value (`getMemSizeMB` the stored `memSize`
divided by `1024*1024`), the same on every call; on a null `systemInfo` it
returns nothing. -/
theorem accessors_read_snapshot (si : SystemInfo) :
    getMemSizeMB (some si) = some (si.memSize / (1024 * 1024))
      ∧ getNumCores (some si) = some si.numCores
      ∧ getOsType (some si) = some si.osType
      ∧ getPageSize (some si) = some si.pageSize
      ∧ sysInfo (some si) = some si
      ∧ getMemSizeMB none = none
      ∧ getNumCores none = none
      ∧ getOsType none = none
      ∧ getPageSize none = none :=
  ⟨rfl, rfl, rfl, rfl, rfl, rfl, rfl, rfl, rfl⟩

end ProcessInfo
